import Mathlib

/-!
# Verification of the iCORA intent MCP/WireMock demo pipeline

Shallow embedding of the core logic of the repository
(`icoraintent-mcp-fastmcp_function-source/main.py` and
`icoraintent-wiremock-fastapi_function-source/main.py`):
the OAuth token lifecycle manager, the TMF921 intent payload builder,
the tool-dispatch error paths, and the mock backend's bearer-token gate.

Modelling conventions:
* Python `dict`s that keep insertion order are embedded as association
  lists `List (String × Json)`.
* Python `None`-able values are `Option`; Python truthiness of such
  values (`if not x`, `if arguments.get(k)`) is made explicit via
  `optJsonTruthy` / `optListTruthy` / the token manager's string check.
* Wall-clock instants (`datetime.now()`) are integers (seconds); the
  current time is passed as an explicit parameter.
* HTTP calls are embedded by passing the collaborator's response as an
  explicit parameter; the functions under test only shape and inspect it.
-/

set_option autoImplicit false

namespace ICora

/-- A JSON value, as produced by `json` / `dict` literals in the Python
source. Numbers are embedded as integers (the source never computes with
them; coordinates are copied through opaquely). Arrays and objects are
cons-encoded (rather than holding a nested `List`) so that `DecidableEq`
can be derived; the smart constructors `Json.arr` and `Json.obj` below
recover list syntax, and every definition and theorem uses those. -/
inductive Json where
  | null
  | str (s : String)
  | num (n : Int)
  | boolean (b : Bool)
  | arrNil
  | arrCons (head tail : Json)
  | objNil
  | objCons (key : String) (value tail : Json)
  deriving DecidableEq, Repr

/-- A JSON array holding the given elements. -/
def Json.arr (elems : List Json) : Json :=
  elems.foldr Json.arrCons Json.arrNil

/-- A JSON object holding the given fields, in order. -/
def Json.obj (fields : List (String × Json)) : Json :=
  fields.foldr (fun kv t => Json.objCons kv.1 kv.2 t) Json.objNil

/-- Python truthiness of a JSON value (`bool(x)`): `None`, `""`, `0`,
`False`, `[]` and `{}` are falsy. -/
def Json.truthy : Json → Bool
  | .null => false
  | .str s => !(s == "")
  | .num n => !(n == 0)
  | .boolean b => b
  | .arrNil => false
  | .arrCons _ _ => true
  | .objNil => false
  | .objCons _ _ _ => true

/-- Truthiness of an optional JSON value: `arguments.get(k)` yields `None`
(falsy) when the key is absent, otherwise the value's own truthiness. -/
def optJsonTruthy : Option Json → Bool
  | none => false
  | some j => j.truthy

/-- Truthiness of an optional list-valued argument: falsy when absent
(`None`) or an empty list. -/
def optListTruthy {α : Type} : Option (List α) → Bool
  | none => false
  | some l => !l.isEmpty

/-! ## Token lifecycle manager (`CloudTokenManager`) -/

/-- The mutable state of `CloudTokenManager`: `self.token` and
`self.token_expiry` (both initially `None`). -/
structure TokenState where
  token : Option String
  tokenExpiry : Option Int
  deriving DecidableEq, Repr

/-- The JSON body returned by the token endpoint, as read by
`_refresh_access_token`: `token_data['access_token']` and the optional
`token_data.get('expires_in', 3600)`. -/
structure TokenResponse where
  accessToken : String
  expiresIn : Option Int
  deriving DecidableEq, Repr

/-- `CloudTokenManager._refresh_access_token`, successful case: stores
`access_token` and sets
`token_expiry = now + (expires_in or default 3600) - 30`.
The pre-state is overwritten entirely. A failed HTTP call raises and
leaves the state unchanged; only the successful path is modelled, with
the endpoint's response passed in as `resp`. -/
def refreshAccessToken (now : Int) (resp : TokenResponse) (_s : TokenState) :
    TokenState :=
  { token := some resp.accessToken
    tokenExpiry := some (now + (resp.expiresIn.getD 3600 - 30)) }

/-- `CloudTokenManager.get_valid_token`: returns the cached token when
`self.token and self.token_expiry and datetime.now() < self.token_expiry`
(note the Python truthiness: an empty-string token fails the first
conjunct), otherwise refreshes and returns the newly stored token.
Result: the returned token (`self.token` at the return point), the
post-state, and whether a refresh was performed. -/
def getValidToken (now : Int) (resp : TokenResponse) (s : TokenState) :
    Option String × TokenState × Bool :=
  match s.token, s.tokenExpiry with
  | some t, some e =>
    if !(t == "") && decide (now < e) then
      (some t, s, false)
    else
      let s2 := refreshAccessToken now resp s
      (s2.token, s2, true)
  | _, _ =>
    let s2 := refreshAccessToken now resp s
    (s2.token, s2, true)

/-! ## Intent payload builder (`_build_cloud_intent_payload`) -/

/-- One element of the `serviceArea` argument: a Python dict read via
`point["longitude"]` / `point["latitude"]`. The coordinate values are
copied through opaquely, so they are arbitrary JSON values here. -/
structure GeoPoint where
  longitude : Json
  latitude : Json
  deriving DecidableEq, Repr

/-- The argument dict passed to `_build_cloud_intent_payload` by
`icoraintent_create_cloud_intent`. The caller always supplies every key,
with `None` for an absent optional argument; `none` models that. -/
structure IntentArguments where
  name : String
  description : String
  intentType : String
  deliveryExpectations : Option (List Json)
  serviceArea : Option (List GeoPoint)
  validFor : Option Json
  propertyExpectations : Option (List Json)
  deriving DecidableEq, Repr

/-- Embeds an optional Python list argument as the JSON value placed in a
payload: `None` becomes JSON null, a list becomes a JSON array. -/
def jsonOfOptList (l : Option (List Json)) : Json :=
  match l with
  | none => Json.null
  | some elems => Json.arr elems

/-- Lookup in an insertion-ordered dict (`payload[k]`, first match). -/
def lookupKey (payload : List (String × Json)) (k : String) : Option Json :=
  match payload with
  | [] => none
  | (k', v) :: rest => if k' = k then some v else lookupKey rest k

/-- `k in payload` on an insertion-ordered dict. -/
def containsKey (payload : List (String × Json)) (k : String) : Bool :=
  match payload with
  | [] => false
  | (k', _) :: rest => k' == k || containsKey rest k

/-- `lst.append(v)` on a JSON array value: appends at the end. The source
only ever applies this to a value that is a list, so non-array values are
returned unchanged. -/
def jsonArrayAppend (j v : Json) : Json :=
  match j with
  | .arrNil => Json.arrCons v Json.arrNil
  | .arrCons h t => Json.arrCons h (jsonArrayAppend t v)
  | other => other

/-- `payload[k].append(v)`: updates the first entry with key `k` in
place (position preserved), appending `v` to its array value. -/
def appendAtKey (payload : List (String × Json)) (k : String) (v : Json) :
    List (String × Json) :=
  match payload with
  | [] => []
  | (k', w) :: rest =>
    if k' = k then (k', jsonArrayAppend w v) :: rest
    else (k', w) :: appendAtKey rest k v

/-- The fixed JSON-LD `expression` value installed for the
`EventLiveBroadcast` intent type (note the source writes the context
block under the literal key `"context"`, not `"@context"`). -/
def expressionJson : Json :=
  Json.obj
    [("context", Json.obj
        [("icm", Json.str "http://www.models.tmforum.org/tio/v1.0/IntentCommonModel#"),
         ("cat", Json.str "http://www.operator.com/Catalog#"),
         ("idan", Json.str "http://www.idan-tmforum-catalyst.org/IntentDrivenAutonomousNetworks#"),
         ("geo", Json.str "https://tmforum.org/2020/07/geographicPoint#")]),
     ("idan", Json.obj
        [("EventLiveBroadcast", Json.obj
            [("@type", Json.str "icm:Intent"),
             ("icm:intentOwner", Json.str "idan:ABCEvents"),
             ("icm:hasExpectation", Json.arr [])])])]

/-- The `{geo:longitude, geo:latitude}` dict built from one service-area
point. -/
def geoPointJson (point : GeoPoint) : Json :=
  Json.obj [("geo:longitude", point.longitude), ("geo:latitude", point.latitude)]

/-- The property-expectation entry appended for a service area. -/
def areaOfServiceEntry (points : List GeoPoint) : Json :=
  Json.obj
    [("target", Json.str "_:service"),
     ("params", Json.obj [("elb:areaOfService", Json.arr (points.map geoPointJson))])]

/-- `_build_cloud_intent_payload`, line by line. The payload dict is an
insertion-ordered association list. `arguments.get(k)` truthiness is
`optJsonTruthy` / `optListTruthy`; `"propertyExpectations" not in payload`
is `containsKey`; `payload["propertyExpectations"].append(...)` is
`appendAtKey`. -/
def buildCloudIntentPayload (arguments : IntentArguments) :
    List (String × Json) :=
  let payload : List (String × Json) :=
    [("name", Json.str arguments.name),
     ("description", Json.str arguments.description),
     ("type", Json.str "Intent"),
     ("deliveryExpectations", jsonOfOptList arguments.deliveryExpectations)]
  let payload :=
    if optJsonTruthy arguments.validFor then
      payload ++ [("validFor", arguments.validFor.getD Json.null)]
    else payload
  let payload :=
    if optListTruthy arguments.propertyExpectations then
      payload ++ [("propertyExpectations", Json.arr (arguments.propertyExpectations.getD []))]
    else payload
  if arguments.intentType = "EventLiveBroadcast" then
    let payload := payload ++ [("expression", expressionJson)]
    if optListTruthy arguments.serviceArea then
      let payload :=
        if containsKey payload "propertyExpectations" then payload
        else payload ++ [("propertyExpectations", Json.arr [])]
      appendAtKey payload "propertyExpectations"
        (areaOfServiceEntry (arguments.serviceArea.getD []))
    else payload
  else payload

/-- `_build_cloud_intent_payload` together with its effect on the caller's
argument dict. In the source, `payload["propertyExpectations"] =
arguments["propertyExpectations"]` aliases the caller's list, and
`payload["propertyExpectations"].append(...)` then mutates that shared
list in place. So whenever the input `propertyExpectations` is truthy and
the `EventLiveBroadcast` service-area branch appends, the caller's
`arguments["propertyExpectations"]` list is extended as well. The second
component is the argument dict as the caller observes it after the call. -/
def buildCloudIntentPayloadRun (arguments : IntentArguments) :
    List (String × Json) × IntentArguments :=
  let payload := buildCloudIntentPayload arguments
  let mutatedArguments :=
    if (arguments.intentType == "EventLiveBroadcast")
        && optListTruthy arguments.serviceArea
        && optListTruthy arguments.propertyExpectations then
      { arguments with
          propertyExpectations :=
            some (arguments.propertyExpectations.getD []
              ++ [areaOfServiceEntry (arguments.serviceArea.getD [])]) }
    else arguments
  (payload, mutatedArguments)

/-! ## Tool dispatch facade (`icoraintent_*` tools) -/

/-- The caller-facing arguments of `icoraintent_create_cloud_intent`
(defaults as in the Python signature: `intentType="EventLiveBroadcast"`,
all optional arguments `None`). -/
structure CreateIntentInput where
  name : String
  description : String
  intentType : String := "EventLiveBroadcast"
  deliveryExpectations : Option (List Json) := none
  serviceArea : Option (List GeoPoint) := none
  validFor : Option Json := none
  propertyExpectations : Option (List Json) := none
  deriving DecidableEq, Repr

/-- The default delivery expectation installed by
`icoraintent_create_cloud_intent` when the caller supplies none. -/
def defaultDeliveryExpectation : Json :=
  Json.obj
    [("target", Json.str "_:service"),
     ("params", Json.obj [("targetDescription", Json.str "cat:EventWirelessAccess")])]

/-- `if not deliveryExpectations: deliveryExpectations = [default]` —
the falsy cases (`None` or empty list) are replaced by the default. -/
def resolveDeliveryExpectations (de : Option (List Json)) : List Json :=
  if !optListTruthy de then [defaultDeliveryExpectation] else de.getD []

/-- The intent payload actually posted by `icoraintent_create_cloud_intent`:
the builder applied to the argument dict it assembles, with delivery
expectations already defaulted. -/
def createIntentPayload (inp : CreateIntentInput) : List (String × Json) :=
  buildCloudIntentPayload
    { name := inp.name
      description := inp.description
      intentType := inp.intentType
      deliveryExpectations := some (resolveDeliveryExpectations inp.deliveryExpectations)
      serviceArea := inp.serviceArea
      validFor := inp.validFor
      propertyExpectations := inp.propertyExpectations }

/-- The backend's HTTP response to the intent POST, as inspected by
`icoraintent_create_cloud_intent`: status code, optional `location`
header, parsed JSON body (`response.json()`) and raw text
(`response.text`). -/
structure HttpResponse where
  status : Nat
  locationHeader : Option String
  jsonBody : Json
  text : String
  deriving DecidableEq, Repr

/-- The error message returned by `icoraintent_test_cloud_auth` and
`icoraintent_create_cloud_intent` when no token manager is installed
(the source prefixes a cross-mark status emoji, modelled here by the
`error` constructor of the result types). -/
def notConfiguredMsg : String :=
  "Cloud authentication not configured. Use icoraintent_configure_cloud_auth first."

/-- Result of `icoraintent_create_cloud_intent`, one constructor per
return path of the source: the not-configured / failure message string,
or the success message's interpolated data (`location` header defaulted
to `"N/A"`, and the parsed response body). -/
inductive CreateIntentResult where
  | error (msg : String)
  | success (location : String) (body : Json)
  deriving DecidableEq, Repr

/-- `icoraintent_create_cloud_intent` after payload construction: the
configured manager (`token_manager` global, `none` when unconfigured) and
the backend's response to the POST are passed explicitly. Status 201
yields the success path echoing the `location` header (default `"N/A"`)
and the parsed body; any other status yields the error string built from
the literal status code and `response.text`. -/
def icoraintentCreateCloudIntent (tokenManager : Option TokenState)
    (_inp : CreateIntentInput) (resp : HttpResponse) : CreateIntentResult :=
  match tokenManager with
  | none => .error notConfiguredMsg
  | some _ =>
    if resp.status == 201 then
      .success (resp.locationHeader.getD "N/A") resp.jsonBody
    else
      .error ("Cloud intent creation failed: " ++ toString resp.status ++ " - " ++ resp.text)

/-- Result of `icoraintent_test_cloud_auth`: error message, or the
success message's 20-character token preview. -/
inductive TestAuthResult where
  | error (msg : String)
  | success (tokenPreview : String)
  deriving DecidableEq, Repr

/-- `icoraintent_test_cloud_auth`: not-configured check, then
`get_valid_token` and a success message previewing `token[:20]`. -/
def icoraintentTestCloudAuth (tokenManager : Option TokenState)
    (now : Int) (resp : TokenResponse) : TestAuthResult :=
  match tokenManager with
  | none => .error notConfiguredMsg
  | some s =>
    let r := getValidToken now resp s
    .success ((r.1.getD "").take 20)

/-! ## Mock backend bearer gate (`icoraintent-wiremock-fastapi`) -/

/-- Python `s.startswith(p)`. -/
def pyStartsWith (s p : String) : Bool :=
  p.data.isPrefixOf s.data

/-- The rejection condition of `validate_bearer_token` and of the
`/intent/` branch of `icoraintent_wiremock_function`:
`not authorization or not authorization.startswith("Bearer ")`
(a missing header is `None`, hence falsy; an empty header is falsy too). -/
def bearerRejected (authorization : Option String) : Bool :=
  match authorization with
  | none => true
  | some a => (a == "") || !pyStartsWith a "Bearer "

/-- Outcome of the mock backend's `/intent/` POST route, one constructor
per return path: 401 `{"error": "unauthorized"}` when the bearer check
fails, 400 validation error when the body does not parse as an
`IntentRequest`, otherwise 201 with the generated response. Body parsing
and response generation are external to the gate, so the parse outcome is
passed in. -/
inductive WiremockIntentOutcome where
  | unauthorized (status : Nat) (error : String)
  | validationError (status : Nat)
  | created (status : Nat)
  deriving DecidableEq, Repr

/-- The `/intent/` POST branch of `icoraintent_wiremock_function`: the
Authorization header is checked first; only then is the body parsed and
the 201 response produced. -/
def wiremockCreateIntentRoute (authorization : Option String)
    (bodyParses : Bool) : WiremockIntentOutcome :=
  if bearerRejected authorization then
    .unauthorized 401 "unauthorized"
  else if bodyParses then
    .created 201
  else
    .validationError 400

/-! ## JSON object accessors (for stating properties of built values) -/

/-- Field lookup inside a JSON object value (first match). -/
def jsonObjLookup : Json → String → Option Json
  | .objCons k v t, key => if k = key then some v else jsonObjLookup t key
  | _, _ => none

/-- The keys of a JSON object value, in order. -/
def jsonObjKeys : Json → List String
  | .objCons k _ t => k :: jsonObjKeys t
  | _ => []

/-! ## Association-list lemmas -/

theorem lookupKey_nil (k : String) : lookupKey [] k = none := rfl

theorem lookupKey_cons (k' : String) (v : Json) (p : List (String × Json)) (k : String) :
    lookupKey ((k', v) :: p) k = if k' = k then some v else lookupKey p k := rfl

theorem lookupKey_append (p q : List (String × Json)) (k : String) :
    lookupKey (p ++ q) k = (lookupKey p k).orElse fun _ => lookupKey q k := by
  induction p with
  | nil => rfl
  | cons kv rest ih =>
    obtain ⟨k', v⟩ := kv
    by_cases h : k' = k <;> simp [lookupKey_cons, h, ih, Option.orElse]

theorem getD_nil_of_optListTruthy_eq_false {α : Type} (l : Option (List α))
    (h : optListTruthy l = false) : l.getD [] = [] := by
  cases l with
  | none => rfl
  | some l' => cases l' with
    | nil => rfl
    | cons x rest => simp [optListTruthy] at h

theorem containsKey_append (p q : List (String × Json)) (k : String) :
    containsKey (p ++ q) k = (containsKey p k || containsKey q k) := by
  induction p with
  | nil => rfl
  | cons kv rest ih =>
    obtain ⟨k', v⟩ := kv
    simp [containsKey, ih, Bool.or_assoc]

theorem containsKey_eq_false_iff (p : List (String × Json)) (k : String) :
    containsKey p k = false ↔ lookupKey p k = none := by
  induction p with
  | nil => simp [containsKey, lookupKey]
  | cons kv rest ih =>
    obtain ⟨k', v⟩ := kv
    by_cases h : k' = k <;> simp [containsKey, lookupKey_cons, h, ih]

theorem lookupKey_appendAtKey_ne (p : List (String × Json)) (k : String) (v : Json)
    (k' : String) (h : ¬k = k') :
    lookupKey (appendAtKey p k v) k' = lookupKey p k' := by
  induction p with
  | nil => rfl
  | cons kv rest ih =>
    obtain ⟨k0, w⟩ := kv
    by_cases h0 : k0 = k
    · subst h0
      simp [appendAtKey, lookupKey_cons, h]
    · simp [appendAtKey, h0, lookupKey_cons, ih]

theorem lookupKey_appendAtKey_self (p : List (String × Json)) (k : String) (v : Json) :
    lookupKey (appendAtKey p k v) k =
      (lookupKey p k).map fun w => jsonArrayAppend w v := by
  induction p with
  | nil => rfl
  | cons kv rest ih =>
    obtain ⟨k0, w⟩ := kv
    by_cases h0 : k0 = k
    · subst h0
      simp [appendAtKey, lookupKey_cons]
    · simp [appendAtKey, h0, lookupKey_cons, ih]

theorem jsonArrayAppend_arr (xs : List Json) (v : Json) :
    jsonArrayAppend (Json.arr xs) v = Json.arr (xs ++ [v]) := by
  induction xs with
  | nil => rfl
  | cons x rest ih => simpa [Json.arr, jsonArrayAppend] using ih

/-! ## Key-by-key characterisation of the built payload -/

theorem lookupKey_build_deliveryExpectations (args : IntentArguments) :
    lookupKey (buildCloudIntentPayload args) "deliveryExpectations"
      = some (jsonOfOptList args.deliveryExpectations) := by
  unfold buildCloudIntentPayload
  by_cases ht : args.intentType = "EventLiveBroadcast" <;>
    cases hv : optJsonTruthy args.validFor <;>
      cases hp : optListTruthy args.propertyExpectations <;>
        cases hs : optListTruthy args.serviceArea <;>
          simp [ht, hv, hp, hs, lookupKey, containsKey, appendAtKey, beq_iff_eq]

theorem lookupKey_build_name (args : IntentArguments) :
    lookupKey (buildCloudIntentPayload args) "name" = some (Json.str args.name) := by
  unfold buildCloudIntentPayload
  by_cases ht : args.intentType = "EventLiveBroadcast" <;>
    cases hv : optJsonTruthy args.validFor <;>
      cases hp : optListTruthy args.propertyExpectations <;>
        cases hs : optListTruthy args.serviceArea <;>
          simp [ht, hv, hp, hs, lookupKey, containsKey, appendAtKey, beq_iff_eq]

theorem lookupKey_build_validFor (args : IntentArguments) :
    lookupKey (buildCloudIntentPayload args) "validFor"
      = if optJsonTruthy args.validFor then some (args.validFor.getD Json.null)
        else none := by
  unfold buildCloudIntentPayload
  by_cases ht : args.intentType = "EventLiveBroadcast" <;>
    cases hv : optJsonTruthy args.validFor <;>
      cases hp : optListTruthy args.propertyExpectations <;>
        cases hs : optListTruthy args.serviceArea <;>
          simp [ht, hv, hp, hs, lookupKey, containsKey, appendAtKey, beq_iff_eq]

theorem lookupKey_build_expression (args : IntentArguments) :
    lookupKey (buildCloudIntentPayload args) "expression"
      = if args.intentType = "EventLiveBroadcast" then some expressionJson
        else none := by
  unfold buildCloudIntentPayload
  by_cases ht : args.intentType = "EventLiveBroadcast" <;>
    cases hv : optJsonTruthy args.validFor <;>
      cases hp : optListTruthy args.propertyExpectations <;>
        cases hs : optListTruthy args.serviceArea <;>
          simp [ht, hv, hp, hs, lookupKey, containsKey, appendAtKey, beq_iff_eq]

theorem lookupKey_build_propertyExpectations (args : IntentArguments) :
    lookupKey (buildCloudIntentPayload args) "propertyExpectations"
      = if args.intentType = "EventLiveBroadcast" ∧ optListTruthy args.serviceArea then
          some (Json.arr (args.propertyExpectations.getD []
            ++ [areaOfServiceEntry (args.serviceArea.getD [])]))
        else if optListTruthy args.propertyExpectations then
          some (Json.arr (args.propertyExpectations.getD []))
        else none := by
  unfold buildCloudIntentPayload
  by_cases ht : args.intentType = "EventLiveBroadcast" <;>
    cases hv : optJsonTruthy args.validFor <;>
      cases hp : optListTruthy args.propertyExpectations <;>
        cases hs : optListTruthy args.serviceArea <;>
          simp [ht, hv, hp, hs, lookupKey, containsKey, appendAtKey, beq_iff_eq,
            jsonArrayAppend_arr, getD_nil_of_optListTruthy_eq_false]

/-! ## Claim theorems -/

/-- C1 (counterexample to the claim as stated): with a cached empty-string
token and an expiry strictly in the future, `get_valid_token` does NOT
return the cached token unchanged without refresh — Python's
`if self.token and ...` treats the cached `""` as falsy and refreshes. -/
theorem getValidToken_empty_cached_token_refreshes :
    getValidToken 0 ⟨"fresh", some 3600⟩ ⟨some "", some 100⟩
        ≠ (some "", ⟨some "", some 100⟩, false)
      ∧ (getValidToken 0 ⟨"fresh", some 3600⟩ ⟨some "", some 100⟩).2.2 = true := by
  decide

/-- C1 (amended): `get_valid_token` returns the cached token unchanged
with no refresh when a NON-EMPTY token is cached and the current time is
strictly before its set expiry; otherwise — no cached token, an
empty-string cached token, no expiry set, or current time at or past
expiry — it performs exactly one refresh and returns the newly stored
token. -/
theorem getValidToken_cached_or_refresh (now : Int) (resp : TokenResponse)
    (s : TokenState) :
    (∀ t e, s.token = some t → ¬(t = "") → s.tokenExpiry = some e → now < e →
      getValidToken now resp s = (some t, s, false))
    ∧ ((s.token = none ∨ s.token = some "" ∨ s.tokenExpiry = none ∨
          ∃ e, s.tokenExpiry = some e ∧ e ≤ now) →
      getValidToken now resp s
        = (some resp.accessToken, refreshAccessToken now resp s, true)) := by
  obtain ⟨tok, exp⟩ := s
  constructor
  · rintro t e ht hne he hlt
    simp only at ht he
    subst ht he
    simp [getValidToken, hne, hlt]
  · intro h
    rcases h with h | h | h | ⟨e, he, hle⟩
    · simp only at h
      subst h
      cases exp <;> simp [getValidToken, refreshAccessToken]
    · simp only at h
      subst h
      cases exp <;> simp [getValidToken, refreshAccessToken]
    · simp only at h
      subst h
      cases tok <;> simp [getValidToken, refreshAccessToken]
    · simp only at he
      subst he
      cases tok with
      | none => simp [getValidToken, refreshAccessToken]
      | some t => simp [getValidToken, refreshAccessToken, not_lt.mpr hle]

/-- Witness for `getValidToken_cached_or_refresh`: both branches at
concrete states — a fresh cached token is returned unchanged, and an
expired one triggers the refresh. -/
theorem getValidToken_cached_or_refresh_witness :
    getValidToken 5 ⟨"new", none⟩ ⟨some "tok", some 10⟩
        = (some "tok", ⟨some "tok", some 10⟩, false)
      ∧ getValidToken 10 ⟨"new", none⟩ ⟨some "tok", some 10⟩
        = (some "new", refreshAccessToken 10 ⟨"new", none⟩ ⟨some "tok", some 10⟩, true) :=
  ⟨(getValidToken_cached_or_refresh 5 ⟨"new", none⟩ ⟨some "tok", some 10⟩).1
      "tok" 10 rfl (by decide) rfl (by decide),
   (getValidToken_cached_or_refresh 10 ⟨"new", none⟩ ⟨some "tok", some 10⟩).2
      (Or.inr (Or.inr (Or.inr ⟨10, rfl, by decide⟩)))⟩

/-- C2: a successful refresh stores the response's `access_token` as the
cached token and sets the cached expiry to the current time plus
(`expires_in` if present, else 3600) minus the 30-second safety margin. -/
theorem refreshAccessToken_stores_token_and_expiry (now : Int)
    (resp : TokenResponse) (s : TokenState) :
    refreshAccessToken now resp s
      = { token := some resp.accessToken
          tokenExpiry := some (now + resp.expiresIn.getD 3600 - 30) } := by
  simp only [refreshAccessToken, TokenState.mk.injEq, Option.some.injEq, true_and]
  omega

/-- C3 (counterexample to the claim as stated): for an
`EventLiveBroadcast` request the built `expression` value has NO
`"@context"` member — the source writes the namespace block under the
literal key `"context"` (and the `"@context"` spelled in the claim is
absent), as the non-`none` lookup of `"context"` shows. -/
theorem expression_context_key_counterexample :
    lookupKey (buildCloudIntentPayload
        ⟨"Event", "desc", "EventLiveBroadcast", some [defaultDeliveryExpectation],
          none, none, none⟩) "expression" = some expressionJson
      ∧ jsonObjLookup expressionJson "@context" = none
      ∧ jsonObjLookup expressionJson "context" ≠ none := by
  decide

/-- C3 (amended): for intentType `"EventLiveBroadcast"` the payload's
`expression` holds the namespace block under key `"context"` (not the
JSON-LD `"@context"` spelled in the claim) with exactly the four prefixes
`icm`, `cat`, `idan`, `geo`, and a nested `idan` → `EventLiveBroadcast`
node with `@type = icm:Intent`, the fixed `icm:intentOwner`
`idan:ABCEvents` and an empty `icm:hasExpectation` sequence; for every
other intentType no `expression` field is added. -/
theorem expression_field_spec (args : IntentArguments) :
    (args.intentType = "EventLiveBroadcast" →
      lookupKey (buildCloudIntentPayload args) "expression" = some expressionJson
        ∧ jsonObjKeys ((jsonObjLookup expressionJson "context").getD Json.null)
            = ["icm", "cat", "idan", "geo"]
        ∧ jsonObjLookup ((jsonObjLookup expressionJson "idan").getD Json.null)
              "EventLiveBroadcast"
            = some (Json.obj
                [("@type", Json.str "icm:Intent"),
                 ("icm:intentOwner", Json.str "idan:ABCEvents"),
                 ("icm:hasExpectation", Json.arr [])]))
    ∧ (¬args.intentType = "EventLiveBroadcast" →
      lookupKey (buildCloudIntentPayload args) "expression" = none) := by
  constructor
  · intro ht
    refine ⟨?_, by decide, by decide⟩
    rw [lookupKey_build_expression, if_pos ht]
  · intro ht
    rw [lookupKey_build_expression, if_neg ht]

/-- Witness for `expression_field_spec`: both branches at concrete
requests. -/
theorem expression_field_spec_witness :
    lookupKey (buildCloudIntentPayload
        ⟨"n", "d", "EventLiveBroadcast", some [], none, none, none⟩) "expression"
        = some expressionJson
      ∧ lookupKey (buildCloudIntentPayload
        ⟨"n", "d", "VideoConference", some [], none, none, none⟩) "expression"
        = none :=
  ⟨((expression_field_spec
      ⟨"n", "d", "EventLiveBroadcast", some [], none, none, none⟩).1 rfl).1,
   (expression_field_spec
      ⟨"n", "d", "VideoConference", some [], none, none, none⟩).2 (by decide)⟩

/-- C4 (counterexample to the claim as stated): a request with a
non-empty `serviceArea` but an intentType other than
`"EventLiveBroadcast"` gets NO `propertyExpectations` entry at all — the
service-area folding lives inside the `EventLiveBroadcast` branch of the
builder. -/
theorem serviceArea_ignored_for_other_intent_types :
    lookupKey (buildCloudIntentPayload
        ⟨"n", "d", "VideoConference", some [defaultDeliveryExpectation],
          some [⟨Json.num 10, Json.num 20⟩], none, none⟩)
        "propertyExpectations" = none := by
  decide

/-- C4 (amended): for every intent request WITH intentType
`"EventLiveBroadcast"` whose serviceArea is a non-empty sequence of
points, the payload's `propertyExpectations` is the input sequence (empty
when absent) extended with one entry of target `"_:service"` and params
`{"elb:areaOfService": points}`, each point mapped to
`{geo:longitude, geo:latitude}` in order. -/
theorem serviceArea_folding_spec (args : IntentArguments) (pts : List GeoPoint)
    (ht : args.intentType = "EventLiveBroadcast")
    (hsa : args.serviceArea = some pts) (hne : pts ≠ []) :
    lookupKey (buildCloudIntentPayload args) "propertyExpectations"
      = some (Json.arr (args.propertyExpectations.getD []
          ++ [Json.obj
                [("target", Json.str "_:service"),
                 ("params", Json.obj
                    [("elb:areaOfService",
                      Json.arr (pts.map fun point =>
                        Json.obj [("geo:longitude", point.longitude),
                                  ("geo:latitude", point.latitude)]))])]])) := by
  have hs : optListTruthy args.serviceArea = true := by
    rw [hsa]
    simp [optListTruthy, hne]
  rw [lookupKey_build_propertyExpectations, if_pos ⟨ht, hs⟩, hsa]
  rfl

/-- Witness for `serviceArea_folding_spec`: the spec's §8 example — one
point, no prior propertyExpectations — yields exactly the one folded
entry. -/
theorem serviceArea_folding_spec_witness :
    lookupKey (buildCloudIntentPayload
        ⟨"n", "d", "EventLiveBroadcast", some [defaultDeliveryExpectation],
          some [⟨Json.num 10, Json.num 20⟩], none, none⟩)
        "propertyExpectations"
      = some (Json.arr ([]
          ++ [Json.obj
                [("target", Json.str "_:service"),
                 ("params", Json.obj
                    [("elb:areaOfService",
                      Json.arr ([⟨Json.num 10, Json.num 20⟩].map
                        fun point : GeoPoint =>
                        Json.obj [("geo:longitude", point.longitude),
                                  ("geo:latitude", point.latitude)]))])]])) :=
  serviceArea_folding_spec
    ⟨"n", "d", "EventLiveBroadcast", some [defaultDeliveryExpectation],
      some [⟨Json.num 10, Json.num 20⟩], none, none⟩
    [⟨Json.num 10, Json.num 20⟩] rfl rfl (by decide)

/-- C5: a create-intent call with no `deliveryExpectations` builds a
payload whose `deliveryExpectations` is exactly the single default
wireless-access entry. -/
theorem default_delivery_expectation_spec (inp : CreateIntentInput)
    (h : inp.deliveryExpectations = none) :
    lookupKey (createIntentPayload inp) "deliveryExpectations"
      = some (Json.arr [Json.obj
          [("target", Json.str "_:service"),
           ("params", Json.obj
              [("targetDescription", Json.str "cat:EventWirelessAccess")])]]) := by
  unfold createIntentPayload
  rw [lookupKey_build_deliveryExpectations]
  simp [jsonOfOptList, resolveDeliveryExpectations, h, optListTruthy,
    defaultDeliveryExpectation]

/-- Witness for `default_delivery_expectation_spec` at a concrete input
using the Python signature defaults. -/
theorem default_delivery_expectation_spec_witness :
    lookupKey (createIntentPayload { name := "n", description := "d" })
        "deliveryExpectations"
      = some (Json.arr [Json.obj
          [("target", Json.str "_:service"),
           ("params", Json.obj
              [("targetDescription", Json.str "cat:EventWirelessAccess")])]]) :=
  default_delivery_expectation_spec { name := "n", description := "d" } rfl

/-- C6 (counterexample to the claim as stated): a `validFor` that is
present in the input but an empty object is dropped from the payload —
`arguments.get("validFor")` truthiness, not key presence, decides the
copy. -/
theorem validFor_present_but_empty_omitted :
    lookupKey (buildCloudIntentPayload
        ⟨"n", "d", "EventLiveBroadcast", some [defaultDeliveryExpectation],
          none, some (Json.obj []), none⟩) "validFor" = none := by
  decide

/-- C6 (amended): the payload contains `validFor` exactly when the
input's `validFor` is present AND truthy (non-empty), equal to it
unmodified; likewise `propertyExpectations` — stated here for payloads
without service-area folding (non-`EventLiveBroadcast` intentType or
falsy serviceArea), where the copied value appears unmodified. When the
input value is absent or empty the key is absent. -/
theorem copy_through_validFor_propertyExpectations (args : IntentArguments) :
    (lookupKey (buildCloudIntentPayload args) "validFor"
      = if optJsonTruthy args.validFor then some (args.validFor.getD Json.null)
        else none)
    ∧ (¬(args.intentType = "EventLiveBroadcast" ∧ optListTruthy args.serviceArea) →
      lookupKey (buildCloudIntentPayload args) "propertyExpectations"
        = if optListTruthy args.propertyExpectations
          then some (Json.arr (args.propertyExpectations.getD []))
          else none) := by
  refine ⟨lookupKey_build_validFor args, fun h => ?_⟩
  rw [lookupKey_build_propertyExpectations, if_neg h]

/-- Witness for `copy_through_validFor_propertyExpectations`: concrete
request with truthy `validFor` and `propertyExpectations`, no folding. -/
theorem copy_through_validFor_propertyExpectations_witness :
    (lookupKey (buildCloudIntentPayload
        ⟨"n", "d", "VideoConference", some [],
          some [⟨Json.num 10, Json.num 20⟩],
          some (Json.obj [("startDateTime", Json.str "s")]),
          some [Json.obj [("target", Json.str "_:x")]]⟩) "validFor"
      = if optJsonTruthy (some (Json.obj [("startDateTime", Json.str "s")]))
        then some ((some (Json.obj [("startDateTime", Json.str "s")])).getD Json.null)
        else none)
    ∧ lookupKey (buildCloudIntentPayload
        ⟨"n", "d", "VideoConference", some [],
          some [⟨Json.num 10, Json.num 20⟩],
          some (Json.obj [("startDateTime", Json.str "s")]),
          some [Json.obj [("target", Json.str "_:x")]]⟩) "propertyExpectations"
      = if optListTruthy (some [Json.obj [("target", Json.str "_:x")]])
        then some (Json.arr ((some [Json.obj [("target", Json.str "_:x")]]).getD []))
        else none :=
  ⟨(copy_through_validFor_propertyExpectations
      ⟨"n", "d", "VideoConference", some [],
        some [⟨Json.num 10, Json.num 20⟩],
        some (Json.obj [("startDateTime", Json.str "s")]),
        some [Json.obj [("target", Json.str "_:x")]]⟩).1,
   (copy_through_validFor_propertyExpectations
      ⟨"n", "d", "VideoConference", some [],
        some [⟨Json.num 10, Json.num 20⟩],
        some (Json.obj [("startDateTime", Json.str "s")]),
        some [Json.obj [("target", Json.str "_:x")]]⟩).2 (by decide)⟩

/-- C7: with no token manager installed, both `icoraintent_test_cloud_auth`
and `icoraintent_create_cloud_intent` return the error envelope carrying
the not-configured message (which contains "not configured") on every
input; the embedded operations are total functions, so no exception
reaches the caller. -/
theorem unconfigured_dispatch_errors (now : Int) (tresp : TokenResponse)
    (inp : CreateIntentInput) (resp : HttpResponse) :
    icoraintentTestCloudAuth none now tresp = .error notConfiguredMsg
    ∧ icoraintentCreateCloudIntent none inp resp = .error notConfiguredMsg
    ∧ ∃ pre post, notConfiguredMsg = pre ++ "not configured" ++ post :=
  ⟨rfl, rfl,
   "Cloud authentication ", ". Use icoraintent_configure_cloud_auth first.", rfl⟩

/-- C8: for a configured create-intent call, an HTTP 201 response yields
the success result echoing the `Location` header (defaulted to `"N/A"`
when absent) and the parsed response body; any other status yields the
error result built from the literal status code and the response body
text. -/
theorem create_intent_status_dispatch (s : TokenState)
    (inp : CreateIntentInput) (resp : HttpResponse) :
    (resp.status = 201 →
      icoraintentCreateCloudIntent (some s) inp resp
        = .success (resp.locationHeader.getD "N/A") resp.jsonBody)
    ∧ (resp.status ≠ 201 →
      icoraintentCreateCloudIntent (some s) inp resp
        = .error ("Cloud intent creation failed: "
            ++ toString resp.status ++ " - " ++ resp.text)) := by
  constructor
  · intro h
    simp [icoraintentCreateCloudIntent, h]
  · intro h
    simp [icoraintentCreateCloudIntent, h]

/-- Witness for `create_intent_status_dispatch`: a 201 with a Location
header, and the spec's §8 example — HTTP 500 with body `"boom"`. -/
theorem create_intent_status_dispatch_witness :
    icoraintentCreateCloudIntent (some ⟨none, none⟩)
        { name := "n", description := "d" }
        ⟨201, some "https://loc/intent/intent-1",
          Json.obj [("id", Json.str "intent-1")], "body"⟩
      = .success "https://loc/intent/intent-1" (Json.obj [("id", Json.str "intent-1")])
    ∧ icoraintentCreateCloudIntent (some ⟨none, none⟩)
        { name := "n", description := "d" }
        ⟨500, none, Json.null, "boom"⟩
      = .error ("Cloud intent creation failed: " ++ toString (500 : Nat) ++ " - " ++ "boom") :=
  ⟨(create_intent_status_dispatch ⟨none, none⟩ { name := "n", description := "d" }
      ⟨201, some "https://loc/intent/intent-1",
        Json.obj [("id", Json.str "intent-1")], "body"⟩).1 rfl,
   (create_intent_status_dispatch ⟨none, none⟩ { name := "n", description := "d" }
      ⟨500, none, Json.null, "boom"⟩).2 (by decide)⟩

/-- C9 (the builder is NOT free of side effects): at this concrete input
— `EventLiveBroadcast`, a non-empty `serviceArea` and a non-empty
`propertyExpectations` — the call extends the caller's
`propertyExpectations` list in place (because the payload entry aliases
it and is then `append`ed to), so the observed argument dict differs from
the original, and a second call on that same dict yields a different
payload than the first: the builder is neither side-effect-free nor
idempotent on a shared input object. -/
theorem builder_mutates_caller_arguments :
    (buildCloudIntentPayloadRun
        ⟨"n", "d", "EventLiveBroadcast", some [defaultDeliveryExpectation],
          some [⟨Json.num 10, Json.num 20⟩], none,
          some [Json.obj [("target", Json.str "_:x")]]⟩).2
      ≠ ⟨"n", "d", "EventLiveBroadcast", some [defaultDeliveryExpectation],
          some [⟨Json.num 10, Json.num 20⟩], none,
          some [Json.obj [("target", Json.str "_:x")]]⟩
    ∧ (buildCloudIntentPayloadRun
        (buildCloudIntentPayloadRun
          ⟨"n", "d", "EventLiveBroadcast", some [defaultDeliveryExpectation],
            some [⟨Json.num 10, Json.num 20⟩], none,
            some [Json.obj [("target", Json.str "_:x")]]⟩).2).1
      ≠ (buildCloudIntentPayloadRun
          ⟨"n", "d", "EventLiveBroadcast", some [defaultDeliveryExpectation],
            some [⟨Json.num 10, Json.num 20⟩], none,
            some [Json.obj [("target", Json.str "_:x")]]⟩).1 := by
  decide

/-- Python `("Bearer " + anything).startswith("Bearer ")` holds. -/
theorem pyStartsWith_bearer_append (t : String) :
    pyStartsWith ("Bearer " ++ t) "Bearer " = true := by
  simp [pyStartsWith, String.data_append, List.isPrefixOf_iff_prefix]

/-- The bearer gate rejects exactly the missing and the
non-`Bearer `-prefixed Authorization headers (an empty header is both
falsy and non-prefixed, so the two characterisations coincide). -/
theorem bearerRejected_iff (authorization : Option String) :
    bearerRejected authorization = true
      ↔ authorization = none
        ∨ ∃ a, authorization = some a ∧ pyStartsWith a "Bearer " = false := by
  cases authorization with
  | none => simp [bearerRejected]
  | some a =>
    by_cases he : a = ""
    · subst he
      simp [bearerRejected]
      decide
    · simp [bearerRejected, he]

/-- C10: the mock backend's intent-creation route answers 401
`"unauthorized"` iff the Authorization header is missing or does not
start with `"Bearer "`; and every header of the form `"Bearer " ++ t`,
for ANY `t` (no verification of the token value), is accepted. -/
theorem bearer_gate_iff (authorization : Option String) (bodyParses : Bool) :
    (wiremockCreateIntentRoute authorization bodyParses
        = .unauthorized 401 "unauthorized"
      ↔ authorization = none
        ∨ ∃ a, authorization = some a ∧ pyStartsWith a "Bearer " = false)
    ∧ ∀ t, wiremockCreateIntentRoute (some ("Bearer " ++ t)) bodyParses
        ≠ .unauthorized 401 "unauthorized" := by
  constructor
  · rw [← bearerRejected_iff]
    unfold wiremockCreateIntentRoute
    cases hr : bearerRejected authorization <;> cases bodyParses <;> simp
  · intro t
    have hsw := pyStartsWith_bearer_append t
    have hne : ¬("Bearer " ++ t) = "" := by
      intro he
      rw [he] at hsw
      simp [pyStartsWith] at hsw
    unfold wiremockCreateIntentRoute
    have hr : bearerRejected (some ("Bearer " ++ t)) = false := by
      simp [bearerRejected, hsw, hne]
    rw [hr]
    cases bodyParses <;> simp

/-- Witness for `bearer_gate_iff`: a non-Bearer header is rejected with
401 unauthorized; a Bearer header with an arbitrary token value is not. -/
theorem bearer_gate_iff_witness :
    wiremockCreateIntentRoute (some "Basic abc") true
        = .unauthorized 401 "unauthorized"
    ∧ wiremockCreateIntentRoute (some ("Bearer " ++ "anything")) true
        ≠ .unauthorized 401 "unauthorized" :=
  ⟨(bearer_gate_iff (some "Basic abc") true).1.mpr
      (Or.inr ⟨"Basic abc", rfl, by decide⟩),
   (bearer_gate_iff (some ("Bearer " ++ "anything")) true).2 "anything"⟩

end ICora
